import Mathlib

/-!
Verification development for the schematic configuration-resolution engine.

Shallow embedding of:
- `crates/config/src/source.rs` (`Source`, `is_file_like`, `is_url_like`,
  `Source::new`, `Source::url`, `Source::parse`);
- `crates/config/src/parser.rs` and `crates/config/src/parsers/{json,toml,yaml}.rs`
  (span construction for `ParserError`);
- `crates/schematic/src/internal.rs` (`merge_setting`, `merge_partial_setting`,
  `parse_from_env_var`, `parse_value`, `partialize_schema`);
- the `PartialConfig` implementation generated by
  `crates/macros/src/config/config.rs` (`finalize`, `merge`, `env_values`,
  `default_values`), instantiated at a representative three-field config.

Rust `Option<T>` becomes `Option T`, `Result<T, E>` becomes `Except E T`,
`String`/`PathBuf` become `String`, and a reachable `unreachable!()`/`unwrap()`
panic becomes an explicit `panic` outcome constructor.
-/

namespace Schematic

/-! ### Errors (`crates/config/src/error.rs`, as used by `source.rs`) -/

/-- The `ConfigError` variants referenced from `source.rs`.  `parser` folds the
five fields of `ConfigError::Parser` into the label and the wrapped error. -/
inductive ConfigError where
  | invalidCode
  | invalidFile
  | invalidUrl
  | httpsOnly
  | extendsFromParentFileOnly
  | missingFile (path : String)
  | parser (config : String) (path : String) (message : String)
  deriving DecidableEq, Repr

/-! ### String primitives

Models of the Rust `str` methods used by the sources, written over the
character list underlying a Lean `String` so that every definition evaluates
inside the kernel. -/

/-- Rust `str::starts_with(pattern)`. -/
def strStartsWith (s pat : String) : Bool :=
  pat.toList.isPrefixOf s.toList

/-- Rust `str::ends_with(pattern)`. -/
def strEndsWith (s pat : String) : Bool :=
  pat.toList.isSuffixOf s.toList

/-- Rust `str::contains(char)`. -/
def strContains (s : String) (c : Char) : Bool :=
  s.toList.contains c

/-- Rust `str::strip_prefix` after a positive `starts_with` check: drop the
pattern's characters. -/
def strDrop (s : String) (n : Nat) : String :=
  String.mk (s.toList.drop n)

/-- Rust `<usize as FromStr>::from_str`: all-digit non-empty strings parse to
the decimal value, anything else fails. -/
def natFromStr (s : String) : Option Nat :=
  if s.toList ≠ [] ∧ s.toList.all Char.isDigit then
    some (s.toList.foldl (fun acc c => acc * 10 + (c.toNat - 48)) 0)
  else
    none

/-! ### Source (`crates/config/src/source.rs`) -/

/-- The `Source` enum: `Code { code }`, `Defaults`, `Env`, `File { path }`,
`Url { url }`.  Paths are modelled as strings (Unix path syntax). -/
inductive Source where
  | code (code : String)
  | defaults
  | env
  | file (path : String)
  | url (url : String)
  deriving DecidableEq, Repr

/-- Outcome of a `Source` constructor: `Ok`, `Err`, or a Rust panic
(`Source::new` calls `parent_path.parent().unwrap()`, which can panic). -/
inductive SourceResult where
  | ok (s : Source)
  | err (e : ConfigError)
  | panic
  deriving DecidableEq, Repr

/-- `is_file_like`: the exact disjunction from `source.rs`, in source order. -/
def is_file_like (value : String) : Bool :=
  strStartsWith value "file://"
    || strStartsWith value "/"
    || strStartsWith value "\\"
    || strStartsWith value "."
    || strContains value '/'
    || strContains value '\\'
    || strEndsWith value ".json"
    || strEndsWith value ".toml"
    || strEndsWith value ".yaml"
    || strEndsWith value ".yml"

/-- `is_url_like`: `https://`, `http://`, or a leading `www`. -/
def is_url_like (value : String) : Bool :=
  strStartsWith value "https://" || strStartsWith value "http://" || strStartsWith value "www"

/-- Model of `std::path::Path::has_root` for Unix-style string paths: the path
begins with the separator. -/
def hasRoot (p : String) : Bool :=
  strStartsWith p "/"

/-- Model of `std::path::Path::parent` for Unix-style string paths without
trailing separators: `none` for the root or the empty path, `some ""` for a
bare file name, otherwise the prefix before the last separator (`"/"` when the
last separator is the leading root). -/
def pathParent (p : String) : Option String :=
  if p = "" ∨ p = "/" then
    none
  else
    match p.toList.reverse.findIdx? (· = '/') with
    | none => some ""
    | some k =>
      let i := p.length - 1 - k
      if i = 0 then some "/" else some (String.mk (p.toList.take i))

/-- Model of `std::path::PathBuf::join` for Unix-style string paths: an
absolute right side replaces the left, otherwise the two are joined with a
separator (none added after an empty or separator-terminated left side). -/
def joinPath (dir p : String) : String :=
  if hasRoot p then p
  else if dir = "" then p
  else if strEndsWith dir "/" then dir ++ p
  else dir ++ "/" ++ p

/-- `Source::code` — the `TryInto<String>` conversion is infallible at the
`&str`/`String` instantiations used by `Source::new`. -/
def Source.mkCode (code : String) : SourceResult :=
  .ok (.code code)

/-- `Source::file` — the `TryInto<PathBuf>` conversion is infallible at the
instantiations used by `Source::new`. -/
def Source.mkFile (path : String) : SourceResult :=
  .ok (.file path)

/-- `Source::url`: rejects any value not starting with `https://` with
`ConfigError::HttpsOnly`. -/
def Source.mkUrl (url : String) : SourceResult :=
  if !(strStartsWith url "https://") then .err .httpsOnly
  else .ok (.url url)

/-- `Source::new(value, parent_source)`:
URL-like values go to `Source::url`; file-like values strip a `file://`
preamble, then resolve against the parent — no parent accepts the value
verbatim, a `File` parent joins a rootless value onto the parent path's
directory (`parent().unwrap()` panics when the parent path has no parent),
and any other parent is `ExtendsFromParentFileOnly`; all remaining values
become inline code. -/
def Source.new (value : String) (parentSource : Option Source) : SourceResult :=
  if is_url_like value then
    Source.mkUrl value
  else if is_file_like value then
    let value := if strStartsWith value "file://" then strDrop value 7 else value
    match parentSource with
    | none => Source.mkFile value
    | some (.file parentPath) =>
      if !(hasRoot value) then
        match pathParent parentPath with
        | none => .panic
        | some dir => Source.mkFile (joinPath dir value)
      else
        Source.mkFile value
    | some _ => .err .extendsFromParentFileOnly
  else
    Source.mkCode value

/-- Whether a `Source` is the `File` variant. -/
def Source.isFile : Source → Bool
  | .file _ => true
  | _ => false

/-- A `SourceResult` produced by the file-like branch of `Source::new`: a
`File` source, the `ExtendsFromParentFileOnly` error, or the
`parent().unwrap()` panic. -/
def treatedAsFile : SourceResult → Bool
  | .ok (.file _) => true
  | .err .extendsFromParentFileOnly => true
  | .panic => true
  | _ => false

/-! ### Parser error spans (`crates/config/src/parser.rs`, `parsers/*.rs`) -/

/-- A miette `SourceSpan`: a byte offset plus a length. -/
structure SourceSpan where
  offset : Nat
  length : Nat
  deriving DecidableEq, Repr

/-- miette `SourceOffset::from_location` (external dependency, modelled):
walk the characters of `source`, maintaining a 0-based line and column,
stopping once the 1-based target location is reached; the byte offset
accumulates each consumed character's UTF-8 width. -/
def offsetFromLocationAux : List Char → Nat → Nat → Nat → Nat → Nat → Nat
  | [], _, _, _, _, offset => offset
  | ch :: rest, locLine, locCol, line, col, offset =>
    if line + 1 ≥ locLine ∧ col + 1 ≥ locCol then
      offset
    else if ch = '\n' then
      offsetFromLocationAux rest locLine locCol (line + 1) 0 (offset + ch.utf8Size)
    else
      offsetFromLocationAux rest locLine locCol line (col + 1) (offset + ch.utf8Size)

/-- miette `SourceOffset::from_location` over a string. -/
def offsetFromLocation (source : String) (locLine locCol : Nat) : Nat :=
  offsetFromLocationAux source.toList locLine locCol 0 0 0

/-- `create_span` from `parser.rs`: the offset of `(line, column)` in
`content`, with length hard-coded to zero. -/
def create_span (content : String) (line column : Nat) : SourceSpan :=
  { offset := offsetFromLocation content line column, length := 0 }

/-- miette `From<Range<usize>> for SourceSpan` (external dependency,
modelled): offset is the range start, length the range width. -/
def spanOfRange (rangeStart rangeEnd : Nat) : SourceSpan :=
  { offset := rangeStart, length := rangeEnd - rangeStart }

/-- miette `From<(usize, usize)> for SourceSpan` (external dependency,
modelled): the first component is the offset, the second the length. -/
def spanOfPair (offset length : Nat) : SourceSpan :=
  { offset := offset, length := length }

/-- The `ParserError` struct: named content, message, dotted field path, and
an optional span. -/
structure ParserError where
  contentName : String
  contentText : String
  error : String
  path : String
  span : Option SourceSpan
  deriving DecidableEq, Repr

/-- The error branch of `JsonParser::parse`: the span is always built with
`create_span` from the deserializer's line and column. -/
def jsonParserError (source content path message : String)
    (line column : Nat) : ParserError :=
  { contentName := source, contentText := content, path := path,
    span := some (create_span content line column), error := message }

/-- The error branch of `TomlParser::parse`: the deserializer's optional byte
range is forwarded verbatim through `From<Range<usize>>`. -/
def tomlParserError (source content path message : String)
    (range : Option (Nat × Nat)) : ParserError :=
  { contentName := source, contentText := content, path := path,
    span := range.map (fun r => spanOfRange r.1 r.2), error := message }

/-- The error branches of the two `serde_path_to_error::deserialize` passes in
`YamlParser::parse`: the deserializer's optional (line, column) location is
turned into a span with `create_span`. -/
def yamlDecodeError (source content path message : String)
    (location : Option (Nat × Nat)) : ParserError :=
  { contentName := source, contentText := content, path := path,
    span := location.map (fun l => create_span content l.1 l.2),
    error := message }

/-- The error branch of `apply_merge` in `YamlParser::parse`: the path is
empty and the optional (line, column) location is converted with
`(s.line(), s.column()).into()`, i.e. `From<(usize, usize)>` — line becomes
the offset and column the length. -/
def yamlMergeError (source content message : String)
    (location : Option (Nat × Nat)) : ParserError :=
  { contentName := source, contentText := content, path := "",
    span := location.map (fun l => spanOfPair l.1 l.2), error := message }

/-! ### Merge helpers (`crates/schematic/src/internal.rs`) -/

/-- `HandlerError(String)`: failure inside a user-supplied handler. -/
structure HandlerError where
  message : String
  deriving DecidableEq, Repr

/-- `merge_setting`: when both sides are `Some` the field-specific `merger`
decides; otherwise a lone `Some` (from either side) wins; `Ok(prev)` in the
final branch also covers the double-`None` case. -/
def merge_setting {T C : Type} (prev next : Option T) (context : C)
    (merger : T → T → C → Except HandlerError (Option T)) :
    Except HandlerError (Option T) :=
  match prev, next with
  | some p, some n => merger p n context
  | none, some n => .ok (some n)
  | _, none => .ok prev

/-- `merge_partial_setting`: identical branch structure, with the nested
partial's `merge_partial` (from `merge.rs`, outside the embedded sources)
abstracted as the `mergePartial` argument. -/
def merge_partial_setting {T C : Type} (prev next : Option T) (context : C)
    (mergePartial : T → T → C → Except HandlerError (Option T)) :
    Except HandlerError (Option T) :=
  match prev, next with
  | some p, some n => mergePartial p n context
  | none, some n => .ok (some n)
  | _, none => .ok prev

/-- `parse_value`: `FromStr` abstracted as `fromStr`; a `none` parse becomes
the fixed `HandlerError` message. -/
def parse_value {T : Type} (fromStr : String → Option T) (value : String) :
    Except HandlerError T :=
  match fromStr value with
  | some v => .ok v
  | none =>
    .error { message := "Failed to parse \"" ++ value ++ "\" into the correct type." }

/-- An environment snapshot: the process environment modelled as an explicit
association list read by `env::var`. -/
abbrev EnvSnapshot : Type := List (String × String)

/-- `env::var(key)` over a snapshot. -/
def envVar (env : EnvSnapshot) (key : String) : Option String :=
  (env.find? (fun kv => kv.1 = key)).map (fun kv => kv.2)

/-- `parse_from_env_var`: absent variables yield `Ok(None)`; a present
variable is run through `parser`, whose error is wrapped with the
variable name. -/
def parse_from_env_var {T : Type} (env : EnvSnapshot) (key : String)
    (parser : String → Except HandlerError (Option T)) :
    Except HandlerError (Option T) :=
  match envVar env key with
  | some var =>
    match parser var with
    | .ok value => .ok value
    | .error e =>
      .error { message := "Invalid environment variable " ++ key ++ ". " ++ e.message }
  | none => .ok none

/-- `default_from_env_var`: `parse_from_env_var` with `parse_value` as the
parser. -/
def default_from_env_var {T : Type} (env : EnvSnapshot) (key : String)
    (fromStr : String → Option T) : Except HandlerError (Option T) :=
  parse_from_env_var env key (fun var => (parse_value fromStr var).map some)

/-! ### Schema partializer (`partialize_schema` in `internal.rs`)

The `Schema` type lives in the `schematic_types` crate, outside the embedded
sources.  Modelled from the spec: a schema node carries an optional type name,
an `optional` flag, a nullability flag (set by `nullify()`), and a tagged type
tree over `Array`, `Object` (key/value), `Struct` (named fields plus a
`partial` flag), `Tuple`, `Union` (variants plus a `partial` flag), and scalar
leaves.  The field map and the variant list are encoded as the mutual
inductives `SchemaFields` and `SchemaList`. -/

mutual
inductive Schema where
  | mk (name : Option String) (optional : Bool) (nullable : Bool) (ty : SchemaType)

inductive SchemaType where
  | array (itemsType : Schema)
  | object (keyType : Schema) (valueType : Schema)
  | struct (partialFlag : Bool) (fields : SchemaFields)
  | tuple (itemsTypes : SchemaList)
  | union (partialFlag : Bool) (variantsTypes : SchemaList)
  | scalar

inductive SchemaFields where
  | nil
  | cons (key : String) (field : Schema) (rest : SchemaFields)

inductive SchemaList where
  | nil
  | cons (head : Schema) (rest : SchemaList)
end

/-- The `name` component of a schema node. -/
def Schema.name : Schema → Option String
  | .mk n _ _ _ => n

/-- The `optional` flag of a schema node. -/
def Schema.optional : Schema → Bool
  | .mk _ o _ _ => o

/-- The nullability flag of a schema node. -/
def Schema.nullable : Schema → Bool
  | .mk _ _ u _ => u

/-- The type tree of a schema node. -/
def Schema.ty : Schema → SchemaType
  | .mk _ _ _ t => t

/-- The `update_name` closure of `partialize_schema`: when `update` holds and
a name is present, prepend `"Partial"` unless it is already there. -/
def update_name (name : Option String) (update : Bool) : Option String :=
  if update then
    match name with
    | some n => if strStartsWith n "Partial" then some n else some ("Partial" ++ n)
    | none => none
  else
    name

/-- `field.optional = true; field.nullify();` — mark a field optional and
nullable.  In the source this happens before the recursive call; since
`partialize_schema` neither reads nor rewrites its argument's own
`optional`/`nullable` flags, marking commutes with the recursion (see
`partialize_markField_comm`). -/
def markField : Schema → Schema
  | .mk n _ _ t => .mk n true true t

mutual
/-- `partialize_schema(schema, force_partial)` as a pure recursive transform:
arrays, objects and tuples recurse with `force_partial = false`; a struct that
is flagged partial or forced renames itself via `update_name` and forces every
field (marked optional and nullable) with `force_partial = true`, while an
unflagged unforced struct recurses into its fields unforced and unrenamed; a
union renames itself when flagged or forced but always recurses into its
variants with `force_partial = false`; scalar leaves are untouched. -/
def partialize_schema (s : Schema) (force : Bool) : Schema :=
  match s with
  | .mk name opt nul ty =>
    match ty with
    | .array itemsType =>
      .mk name opt nul (.array (partialize_schema itemsType false))
    | .object keyType valueType =>
      .mk name opt nul
        (.object (partialize_schema keyType false) (partialize_schema valueType false))
    | .struct partialFlag fields =>
      if partialFlag || force then
        .mk (update_name name true) opt nul
          (.struct partialFlag (partializeFieldsForced fields))
      else
        .mk name opt nul (.struct partialFlag (partializeFields fields))
    | .tuple itemsTypes =>
      .mk name opt nul (.tuple (partializeList itemsTypes))
    | .union partialFlag variantsTypes =>
      .mk (update_name name (partialFlag || force)) opt nul
        (.union partialFlag (partializeList variantsTypes))
    | .scalar => .mk name opt nul .scalar

/-- The forced-struct field loop: every field is marked optional and nullable
and recursed with `force_partial = true`. -/
def partializeFieldsForced : SchemaFields → SchemaFields
  | .nil => .nil
  | .cons key field rest =>
    .cons key (markField (partialize_schema field true)) (partializeFieldsForced rest)

/-- The unforced-struct field loop: recurse with `force_partial = false`. -/
def partializeFields : SchemaFields → SchemaFields
  | .nil => .nil
  | .cons key field rest =>
    .cons key (partialize_schema field false) (partializeFields rest)

/-- The tuple-item / union-variant loop: recurse with
`force_partial = false`. -/
def partializeList : SchemaList → SchemaList
  | .nil => .nil
  | .cons head rest => .cons (partialize_schema head false) (partializeList rest)
end

/-- Every field of the list satisfies the Boolean predicate. -/
def SchemaFields.all (p : Schema → Bool) : SchemaFields → Bool
  | .nil => true
  | .cons _ field rest => p field && rest.all p

/-! ### `Source::parse` (`crates/config/src/source.rs`) -/

/-- Outcome of `Source::parse`: success, a `ConfigError`, or the
`unreachable!()` panic of the catch-all match arm. -/
inductive ParseOutcome (D : Type) where
  | ok (value : D)
  | err (e : ConfigError)
  | panics
  deriving DecidableEq, Repr

/-- The shared tail of `Source::parse`: a format-parser failure is wrapped
into `ConfigError::Parser` with the owning configuration's label. -/
def wrapParseResult {D : Type} (label : String)
    (result : Except ParserError D) : ParseOutcome D :=
  match result with
  | .ok value => .ok value
  | .error e => .err (.parser label e.path e.error)

/-- `Source::parse(format, label)`: `Code` parses its literal text under the
name `"code"`; `File` first checks existence (else `MissingFile`) and parses
the file text under the path name; `Url` parses the fetched body under the
URL name; the `Defaults` and `Env` variants fall into the `unreachable!()`
arm and panic.  The format parser, the filesystem, and the HTTP fetch are
abstracted as functions (`fsRead` returns `none` for a missing file; paths
are strings, so `path.to_str().unwrap()` cannot panic in the model). -/
def Source.parse {D : Type} (s : Source)
    (formatParse : String → String → Except ParserError D)
    (fsRead : String → Option String)
    (fetch : String → Except ConfigError String)
    (label : String) : ParseOutcome D :=
  match s with
  | .code c => wrapParseResult label (formatParse c "code")
  | .file path =>
    match fsRead path with
    | none => .err (.missingFile path)
    | some text => wrapParseResult label (formatParse text path)
  | .url u =>
    match fetch u with
    | .error e => .err e
    | .ok text => wrapParseResult label (formatParse text u)
  | _ => .panics

/-! ### Generated `PartialConfig` (`crates/macros/src/config/config.rs`)

The derive macro generates, per configuration struct, a partial struct whose
fields are all `Option`, plus `default_values` / `env_values` /
`merge` / `finalize` implementations.  The skeletons of `finalize`,
`env_values` and `default_values` are taken from `config.rs` verbatim; the
per-field statements they splice in come from `setting.rs`, which is outside
the embedded sources.  Modelled from the spec: the per-field default-merge
policy is right-biased (take the incoming value), list-valued fields may
instead concatenate, and env-mapped fields read their variable through
`default_from_env_var`.  The representative instantiation below has a
context-dependent defaulted `count`, a constant-defaulted env-mapped `label`,
and a list-valued `items` fielded with the concatenating policy. -/

/-- The representative generated partial struct: every field `Option`. -/
structure PartialTestConfig where
  count : Option Nat
  label : Option String
  items : Option (List Nat)
  deriving DecidableEq, Repr

/-- The context type of the representative config; `count` defaults from it. -/
abbrev TestContext : Type := Nat

/-- Modelled from the spec: the generated right-biased default merge policy —
the incoming (next) value replaces the previous one. -/
def replaceMerger {T C : Type} : T → T → C → Except HandlerError (Option T) :=
  fun _ next _ => .ok (some next)

/-- Modelled from the spec: a concatenating merge policy for list fields. -/
def appendMerger {T C : Type} : List T → List T → C → Except HandlerError (Option (List T)) :=
  fun prev next _ => .ok (some (prev ++ next))

/-- Generated `default_values(context)`: every field from its default
provider (`count` from the context, `label` constant, `items` absent). -/
def PartialTestConfig.default_values (context : TestContext) : PartialTestConfig :=
  { count := some context, label := some "default", items := none }

/-- Generated `env_values()`: start from `Self::default()` (all `None`) and
assign each env-mapped field via `default_from_env_var`; the environment is
the explicit snapshot `env`. -/
def PartialTestConfig.env_values (env : EnvSnapshot) :
    Except HandlerError PartialTestConfig := do
  let count ← default_from_env_var env "TEST_COUNT" natFromStr
  let label ← default_from_env_var env "TEST_LABEL" (fun s => some s)
  pure { count := count, label := label, items := none }

/-- Generated `merge(context, next)`: one `merge_setting` statement per field,
each with its field-specific policy. -/
def PartialTestConfig.merge (prev : PartialTestConfig) (context : TestContext)
    (next : PartialTestConfig) : Except HandlerError PartialTestConfig := do
  let count ← merge_setting prev.count next.count context replaceMerger
  let label ← merge_setting prev.label next.label context replaceMerger
  let items ← merge_setting prev.items next.items context appendMerger
  pure { count := count, label := label, items := items }

/-- Generated `finalize(context)`, skeleton verbatim from `config.rs`:
start from `default_values(context)`, merge the caller's partial (`self`)
into it, then merge `env_values()` into it, then run the per-field finalize
statements (none for this config), and return the accumulator. -/
def PartialTestConfig.finalize (self : PartialTestConfig)
    (context : TestContext) (env : EnvSnapshot) :
    Except HandlerError PartialTestConfig := do
  let part := PartialTestConfig.default_values context
  let part ← part.merge context self
  let envPart ← PartialTestConfig.env_values env
  let part ← part.merge context envPart
  pure part

/-- Field-wise disjointness: no field holds a value on both sides. -/
def PartialTestConfig.disjoint (a b : PartialTestConfig) : Prop :=
  ¬(a.count.isSome = true ∧ b.count.isSome = true)
    ∧ ¬(a.label.isSome = true ∧ b.label.isSome = true)
    ∧ ¬(a.items.isSome = true ∧ b.items.isSome = true)

/-- Field-wise union: on each field the left value when present, otherwise
the right one. -/
def PartialTestConfig.union (a b : PartialTestConfig) : PartialTestConfig :=
  { count := a.count.orElse (fun _ => b.count),
    label := a.label.orElse (fun _ => b.label),
    items := a.items.orElse (fun _ => b.items) }

/-- Observation helper: the `count` field of a successful finalize, `none`
when finalize fails. -/
def finalizedCount (p : PartialTestConfig) (context : TestContext)
    (env : EnvSnapshot) : Option Nat :=
  match p.finalize context env with
  | .ok r => r.count
  | .error _ => none

/-! ### Claim theorems -/

/-- `markField` sets the `optional` flag. -/
theorem markField_optional (s : Schema) : (markField s).optional = true := by
  cases s; rfl

/-- `markField` sets the nullability flag. -/
theorem markField_nullable (s : Schema) : (markField s).nullable = true := by
  cases s; rfl

/-- `partialize_schema` never reads or rewrites the `optional`/`nullable`
flags of the node it is applied to, so marking a field optional-and-nullable
before the recursive call (as the source does) produces the same schema as
marking it after (as `partializeFieldsForced` does). -/
theorem partialize_markField_comm (s : Schema) (b : Bool) :
    partialize_schema (markField s) b = markField (partialize_schema s b) := by
  cases s with
  | mk n o u t =>
    cases t with
    | array i => rfl
    | object k v => rfl
    | struct p fields => simp only [markField, partialize_schema]; split <;> rfl
    | tuple items => rfl
    | union p variants => rfl
    | scalar => rfl

/-- Every field of a forced struct comes out optional and nullable. -/
theorem partializeFieldsForced_all_optional : ∀ fields : SchemaFields,
    SchemaFields.all (fun g => g.optional && g.nullable)
      (partializeFieldsForced fields) = true
  | .nil => rfl
  | .cons _ f rest => by
    simp [partializeFieldsForced, SchemaFields.all, markField_optional,
      markField_nullable, partializeFieldsForced_all_optional rest]

/-- C1: in a merge of a previous with a next partial, a field valued on both
sides is decided by the field-specific merge policy applied to
(prev, next, context); a field valued on exactly one side keeps that value;
a field valued on neither side stays `None` — for both `merge_setting` and
`merge_partial_setting`. -/
theorem claim_C1_merge_setting_policy {T C : Type} (pv nv : T) (c : C)
    (merger mergePartial : T → T → C → Except HandlerError (Option T)) :
    merge_setting (some pv) (some nv) c merger = merger pv nv c
    ∧ merge_setting none (some nv) c merger = .ok (some nv)
    ∧ merge_setting (some pv) none c merger = .ok (some pv)
    ∧ merge_setting (none : Option T) none c merger = .ok none
    ∧ merge_partial_setting (some pv) (some nv) c mergePartial = mergePartial pv nv c
    ∧ merge_partial_setting none (some nv) c mergePartial = .ok (some nv)
    ∧ merge_partial_setting (some pv) none c mergePartial = .ok (some pv)
    ∧ merge_partial_setting (none : Option T) none c mergePartial = .ok none :=
  ⟨rfl, rfl, rfl, rfl, rfl, rfl, rfl, rfl⟩

/-- C5: `Source::url` rejects every value not starting with `https://` with
the HTTPS-only error, so `Source::new` on a URL-like value without the
`https://` scheme fails the same way and no insecurely-schemed `Url` source
is ever constructed. -/
theorem claim_C5_https_only (u v : String) (parent : Option Source)
    (hu : strStartsWith u "https://" = false)
    (hv1 : is_url_like v = true)
    (hv2 : strStartsWith v "https://" = false) :
    Source.mkUrl u = .err .httpsOnly
    ∧ Source.new v parent = .err .httpsOnly := by
  constructor
  · simp [Source.mkUrl, hu]
  · simp [Source.new, hv1, Source.mkUrl, hv2]

/-- C5 witness: the concrete insecure values `http://example.com` (for
`Source::url`) and `www.example.com` (URL-like, routed through
`Source::new`) are both rejected. -/
theorem claim_C5_https_only_witness :
    Source.mkUrl "http://example.com" = .err .httpsOnly
    ∧ Source.new "www.example.com" none = .err .httpsOnly :=
  claim_C5_https_only "http://example.com" "www.example.com" none
    (by decide) (by decide) (by decide)

/-- C3: for a file-like relative extends value, `Source::new` under a `File`
parent with path `P` resolves to `P`'s parent directory joined with the
value; with no parent at all it keeps the value verbatim; under any
non-`File` parent it fails with `ExtendsFromParentFileOnly`. -/
theorem claim_C3_relative_extends (v P d : String) (s : Source)
    (hfile : is_file_like v = true) (hurl : is_url_like v = false)
    (hpre : strStartsWith v "file://" = false) (hrel : hasRoot v = false)
    (hparent : pathParent P = some d) (hs : s.isFile = false) :
    Source.new v (some (.file P)) = .ok (.file (joinPath d v))
    ∧ Source.new v none = .ok (.file v)
    ∧ Source.new v (some s) = .err .extendsFromParentFileOnly := by
  refine ⟨?_, ?_, ?_⟩
  · simp [Source.new, hfile, hurl, hpre, hrel, hparent, Source.mkFile]
  · simp [Source.new, hfile, hurl, hpre, Source.mkFile]
  · cases s <;> simp_all [Source.new, hfile, hurl, hpre, Source.isFile]

/-- C3 witness: the relative value `./config.yml` resolves against the
parent file `dir/app.yml` to `dir/./config.yml`, stays verbatim with no
parent, and errors under the `Defaults` parent. -/
theorem claim_C3_relative_extends_witness :
    Source.new "./config.yml" (some (.file "dir/app.yml"))
        = .ok (.file (joinPath "dir" "./config.yml"))
    ∧ Source.new "./config.yml" none = .ok (.file "./config.yml")
    ∧ Source.new "./config.yml" (some .defaults) = .err .extendsFromParentFileOnly :=
  claim_C3_relative_extends "./config.yml" "dir/app.yml" "dir" .defaults
    (by decide) (by decide) (by decide) (by decide) (by decide) (by decide)

/-- C4: `Source::new` classifies its value in priority order — URL-like
values (`https://`, `http://`, or leading `www`) go to `Source::url`;
otherwise file-like values (leading `file://`, `/`, `\`, `.`, a `/` or `\`
separator anywhere, or a `.json`/`.toml`/`.yaml`/`.yml` suffix) take the
file branch; everything else becomes literal inline code. -/
theorem claim_C4_classification (u f w : String)
    (parentA parentB parentC : Option Source)
    (hu : (strStartsWith u "https://" || strStartsWith u "http://"
        || strStartsWith u "www") = true)
    (hf1 : (strStartsWith f "https://" || strStartsWith f "http://"
        || strStartsWith f "www") = false)
    (hf2 : (strStartsWith f "file://" || strStartsWith f "/"
        || strStartsWith f "\\" || strStartsWith f "."
        || strContains f '/' || strContains f '\\'
        || strEndsWith f ".json" || strEndsWith f ".toml"
        || strEndsWith f ".yaml" || strEndsWith f ".yml") = true)
    (hw1 : (strStartsWith w "https://" || strStartsWith w "http://"
        || strStartsWith w "www") = false)
    (hw2 : (strStartsWith w "file://" || strStartsWith w "/"
        || strStartsWith w "\\" || strStartsWith w "."
        || strContains w '/' || strContains w '\\'
        || strEndsWith w ".json" || strEndsWith w ".toml"
        || strEndsWith w ".yaml" || strEndsWith w ".yml") = false) :
    Source.new u parentA = Source.mkUrl u
    ∧ treatedAsFile (Source.new f parentB) = true
    ∧ Source.new w parentC = .ok (.code w) := by
  refine ⟨?_, ?_, ?_⟩
  · simp [Source.new, is_url_like, hu]
  · simp only [Source.new, is_url_like, is_file_like, hf1, hf2, if_true, if_false,
      Bool.false_eq_true]
    cases parentB with
    | none => simp [Source.mkFile, treatedAsFile]
    | some s =>
      cases s with
      | file parentPath =>
        cases hR : hasRoot (if strStartsWith f "file://" then strDrop f 7 else f) with
        | true => simp [hR, Source.mkFile, treatedAsFile]
        | false =>
          cases hP : pathParent parentPath <;>
            simp [hR, hP, Source.mkFile, treatedAsFile]
      | code c => simp [treatedAsFile]
      | defaults => simp [treatedAsFile]
      | env => simp [treatedAsFile]
      | url uu => simp [treatedAsFile]
  · simp [Source.new, is_url_like, is_file_like, hw1, hw2, Source.mkCode]

/-- C4 witness: `http://x` is URL-like and routed to `Source::url`,
`a.toml` is file-like and takes the file branch, and `hello` is neither and
becomes inline code. -/
theorem claim_C4_classification_witness :
    Source.new "http://x" none = Source.mkUrl "http://x"
    ∧ treatedAsFile (Source.new "a.toml" none) = true
    ∧ Source.new "hello" none = .ok (.code "hello") :=
  claim_C4_classification "http://x" "a.toml" "hello" none none none
    (by decide) (by decide) (by decide) (by decide) (by decide)

/-- C6 counterexample: the TOML parser forwards the deserializer's byte-range
span verbatim, so a TOML failure whose underlying span is the range 6..9
yields a `ParserError` carrying a span of length 3 — not zero. -/
theorem claim_C6_counterexample :
    (tomlParserError "code" "key = nope" "key" "invalid type" (some (6, 9))).span
      = some { offset := 6, length := 3 }
    ∧ ({ offset := 6, length := 3 } : SourceSpan).length ≠ 0 :=
  ⟨rfl, by decide⟩

/-- C6 amended: JSON failures and both YAML decode passes always carry a
zero-length span built by `create_span`; a TOML failure forwards the
deserializer's byte range verbatim (length `end - start`, possibly
non-zero); the YAML merge-resolution failure converts its (line, column)
location directly into a span with offset `line` and length `column`; a span
is absent exactly when the underlying decoder reports no location. -/
theorem claim_C6_amended_span_shapes (src content path msg : String)
    (line col a b l c : Nat) :
    ((jsonParserError src content path msg line col).span.map
        fun sp => sp.length) = some 0
    ∧ ((yamlDecodeError src content path msg (some (l, c))).span.map
        fun sp => sp.length) = some 0
    ∧ (yamlDecodeError src content path msg none).span = none
    ∧ ((tomlParserError src content path msg (some (a, b))).span.map
        fun sp => sp.length) = some (b - a)
    ∧ (tomlParserError src content path msg none).span = none
    ∧ ((yamlMergeError src content msg (some (l, c))).span.map
        fun sp => sp.length) = some c
    ∧ (yamlMergeError src content msg none).span = none :=
  ⟨rfl, rfl, rfl, rfl, rfl, rfl, rfl⟩

/-- C10: `Source::parse` on the `Defaults` or `Env` variant reaches the
`unreachable!()` catch-all arm and panics, while on `Code`, `File`, and
`Url` it always returns an `Ok` or `Err` value, never the panic. -/
theorem claim_C10_parse_partiality {D : Type}
    (formatParse : String → String → Except ParserError D)
    (fsRead : String → Option String)
    (fetch : String → Except ConfigError String)
    (label c p u : String) :
    Source.parse .defaults formatParse fsRead fetch label = .panics
    ∧ Source.parse .env formatParse fsRead fetch label = .panics
    ∧ Source.parse (.code c) formatParse fsRead fetch label ≠ .panics
    ∧ Source.parse (.file p) formatParse fsRead fetch label ≠ .panics
    ∧ Source.parse (.url u) formatParse fsRead fetch label ≠ .panics := by
  refine ⟨rfl, rfl, ?_, ?_, ?_⟩
  · simp only [Source.parse, wrapParseResult]
    cases formatParse c "code" <;> simp
  · simp only [Source.parse]
    cases fsRead p with
    | none => simp
    | some text =>
      simp only [wrapParseResult]
      cases formatParse text p <;> simp
  · simp only [Source.parse]
    cases fetch u with
    | error e => simp
    | ok text =>
      simp only [wrapParseResult]
      cases formatParse text u <;> simp

/-- C7: `partialize_schema` rewrites by node kind — `Array`, `Object`, and
`Tuple` recurse into their item/key/value types with `force_partial = false`;
a `Struct` flagged partial or reached forced is renamed with the `Partial`
marker unless already carrying it, has every field marked optional and
nullable, and recurses into every field forced, while an unflagged unforced
`Struct` recurses unforced without renaming; a `Union` is renamed when
flagged or forced but always recurses into its variants unforced; a scalar
leaf is unchanged. -/
theorem claim_C7_partialize_by_kind
    (name : Option String) (n : String) (opt nul force : Bool)
    (flag1 force1 flag2 force2 : Bool)
    (inner keyT valT : Schema) (fields : SchemaFields) (items : SchemaList)
    (h1 : (flag1 || force1) = true) (h2 : (flag2 || force2) = false) :
    partialize_schema (.mk name opt nul (.array inner)) force
        = .mk name opt nul (.array (partialize_schema inner false))
    ∧ partialize_schema (.mk name opt nul (.object keyT valT)) force
        = .mk name opt nul
            (.object (partialize_schema keyT false) (partialize_schema valT false))
    ∧ partialize_schema (.mk name opt nul (.tuple items)) force
        = .mk name opt nul (.tuple (partializeList items))
    ∧ partialize_schema (.mk name opt nul (.struct flag1 fields)) force1
        = .mk (update_name name true) opt nul
            (.struct flag1 (partializeFieldsForced fields))
    ∧ update_name (some n) true
        = some (if strStartsWith n "Partial" then n else "Partial" ++ n)
    ∧ SchemaFields.all (fun g => g.optional && g.nullable)
        (partializeFieldsForced fields) = true
    ∧ partialize_schema (.mk name opt nul (.struct flag2 fields)) force2
        = .mk name opt nul (.struct flag2 (partializeFields fields))
    ∧ partialize_schema (.mk name opt nul (.union flag1 items)) force1
        = .mk (update_name name true) opt nul
            (.union flag1 (partializeList items))
    ∧ partialize_schema (.mk name opt nul (.union flag2 items)) force2
        = .mk name opt nul (.union flag2 (partializeList items))
    ∧ partialize_schema (.mk name opt nul .scalar) force
        = .mk name opt nul .scalar := by
  refine ⟨rfl, rfl, rfl, ?_, by simp only [update_name, if_true]; split <;> rfl,
    partializeFieldsForced_all_optional fields, ?_, ?_, ?_, rfl⟩
  · simp only [partialize_schema, h1]; rfl
  · simp only [partialize_schema, h2]; rfl
  · simp only [partialize_schema, h1]
  · simp only [partialize_schema, h2, update_name]; rfl

/-- C7 witness: a struct flagged partial, holding one scalar field, is
renamed `PartialConfig` and its field comes out optional and nullable. -/
theorem claim_C7_partialize_by_kind_witness :
    partialize_schema
        (.mk (some "Config") false false
          (.struct true (.cons "a" (.mk none false false .scalar) .nil))) false
      = .mk (some "PartialConfig") false false
          (.struct true (.cons "a" (.mk none true true .scalar) .nil)) := by
  have h := (claim_C7_partialize_by_kind (some "Config") "Config" false false
    false true false false false (.mk none false false .scalar)
    (.mk none false false .scalar) (.mk none false false .scalar)
    (.cons "a" (.mk none false false .scalar) .nil) .nil
    (by decide) (by decide)).2.2.2.1
  rw [h]
  rfl

/-- Evaluation of the generated merge on the representative config: `count`
and `label` follow the right-biased replace policy, `items` concatenates
when both sides are valued. -/
theorem mergeTest_eval (prev next : PartialTestConfig) (c : TestContext) :
    prev.merge c next = .ok
      { count := next.count.orElse fun _ => prev.count,
        label := next.label.orElse fun _ => prev.label,
        items := match prev.items, next.items with
          | some x, some y => some (x ++ y)
          | none, some y => some y
          | _, none => prev.items } := by
  rcases prev with ⟨pc, pl, pi⟩
  rcases next with ⟨nc, nl, ni⟩
  cases pc <;> cases nc <;> cases pl <;> cases nl <;> cases pi <;> cases ni <;>
    rfl

/-- Evaluation of the generated `env_values` when `TEST_COUNT` is set to a
parseable value: `count` is the parsed value and `label` mirrors the
`TEST_LABEL` lookup. -/
theorem env_values_eval_some (env : EnvSnapshot) (s : String) (n : Nat)
    (h1 : envVar env "TEST_COUNT" = some s) (h2 : natFromStr s = some n) :
    PartialTestConfig.env_values env
      = .ok { count := some n, label := envVar env "TEST_LABEL", items := none } := by
  unfold PartialTestConfig.env_values default_from_env_var parse_from_env_var
  rw [h1]
  cases hL : envVar env "TEST_LABEL" <;>
    simp [parse_value, h2, Except.map, Bind.bind, Except.bind, Pure.pure, Except.pure]

/-- Evaluation of the generated `env_values` when `TEST_COUNT` is unset. -/
theorem env_values_eval_none (env : EnvSnapshot)
    (h : envVar env "TEST_COUNT" = none) :
    PartialTestConfig.env_values env
      = .ok { count := none, label := envVar env "TEST_LABEL", items := none } := by
  unfold PartialTestConfig.env_values default_from_env_var parse_from_env_var
  rw [h]
  cases hL : envVar env "TEST_LABEL" <;>
    simp [parse_value, Except.map, Bind.bind, Except.bind, Pure.pure, Except.pure]

/-- Full evaluation of the generated finalize pipeline: environment value,
else the caller's value, else the default — for each replace-policy field. -/
theorem finalize_eval (p : PartialTestConfig) (ctx : TestContext)
    (env : EnvSnapshot) (ec : Option Nat) (el : Option String)
    (hE : PartialTestConfig.env_values env
      = .ok { count := ec, label := el, items := none }) :
    p.finalize ctx env = .ok
      { count := ec.orElse fun _ => p.count.orElse fun _ => some ctx,
        label := el.orElse fun _ => p.label.orElse fun _ => some "default",
        items := p.items } := by
  cases hp : p.items <;>
    simp [PartialTestConfig.finalize, PartialTestConfig.default_values,
      mergeTest_eval, hE, hp, Bind.bind, Except.bind, Pure.pure, Except.pure]

/-- C2: the generated finalize starts from freshly computed defaults, merges
the caller's partial into them, then merges the environment overlay, in that
fixed order — so an environment-provided field wins over the caller's
explicit value, the explicit value wins over the default, and the default
survives only when neither is present. -/
theorem claim_C2_finalize_layering (p q : PartialTestConfig)
    (ctx : TestContext) (env1 env2 : EnvSnapshot) (s : String) (n m : Nat)
    (h1 : envVar env1 "TEST_COUNT" = some s) (h2 : natFromStr s = some n)
    (h3 : envVar env2 "TEST_COUNT" = none)
    (hp : p.count = some m) (hq : q.count = none) :
    (p.finalize ctx env1 =
      ((PartialTestConfig.default_values ctx).merge ctx p) >>= fun acc =>
        (PartialTestConfig.env_values env1) >>= fun e => acc.merge ctx e)
    ∧ finalizedCount p ctx env1 = some n
    ∧ finalizedCount q ctx env1 = some n
    ∧ finalizedCount p ctx env2 = some m
    ∧ finalizedCount q ctx env2 = some ctx := by
  refine ⟨?_, ?_, ?_, ?_, ?_⟩
  · simp only [PartialTestConfig.finalize, bind_pure]
  · rw [finalizedCount, finalize_eval p ctx env1 (some n)
      (envVar env1 "TEST_LABEL") (env_values_eval_some env1 s n h1 h2)]
    rfl
  · rw [finalizedCount, finalize_eval q ctx env1 (some n)
      (envVar env1 "TEST_LABEL") (env_values_eval_some env1 s n h1 h2)]
    rfl
  · rw [finalizedCount, finalize_eval p ctx env2 none
      (envVar env2 "TEST_LABEL") (env_values_eval_none env2 h3)]
    simp [hp, Option.orElse]
  · rw [finalizedCount, finalize_eval q ctx env2 none
      (envVar env2 "TEST_LABEL") (env_values_eval_none env2 h3)]
    simp [hq, Option.orElse]

/-- C2 witness: with `TEST_COUNT=42`, context `7`, and an explicit `count`
of `5`, the environment wins; without `TEST_COUNT`, the explicit `5` wins
over the default `7`, and an empty partial falls back to the default. -/
theorem claim_C2_finalize_layering_witness :
    finalizedCount ⟨some 5, none, some [1]⟩ 7 [("TEST_COUNT", "42")] = some 42
    ∧ finalizedCount ⟨some 5, none, some [1]⟩ 7 [] = some 5
    ∧ finalizedCount ⟨none, none, none⟩ 7 [] = some 7 := by
  have h := claim_C2_finalize_layering ⟨some 5, none, some [1]⟩
    ⟨none, none, none⟩ 7 [("TEST_COUNT", "42")] [] "42" 42 5
    (by decide) (by decide) (by decide) (by decide) (by decide)
  exact ⟨h.2.1, h.2.2.2.1, h.2.2.2.2⟩

/-- C8: when no field is valued on both sides, the generated merge is
commutative and equals the field-wise union — regardless of the per-field
policies, which are never consulted. -/
theorem claim_C8_disjoint_union (a b : PartialTestConfig) (c : TestContext)
    (h : a.disjoint b) :
    a.merge c b = b.merge c a ∧ a.merge c b = .ok (a.union b) := by
  obtain ⟨h1, h2, h3⟩ := h
  rcases a with ⟨ac, al, ai⟩
  rcases b with ⟨bc, bl, bi⟩
  constructor
  · rw [mergeTest_eval, mergeTest_eval]
    cases ac <;> cases bc <;> cases al <;> cases bl <;> cases ai <;> cases bi <;>
      simp_all [Option.orElse]
  · rw [mergeTest_eval]
    cases ac <;> cases bc <;> cases al <;> cases bl <;> cases ai <;> cases bi <;>
      simp_all [PartialTestConfig.union, Option.orElse]

/-- C8 witness: the disjoint partials `(count 1, -, -)` and
`(-, label "x", items [2])` merge to their union in both orders. -/
theorem claim_C8_disjoint_union_witness :
    PartialTestConfig.merge ⟨some 1, none, none⟩ 0 ⟨none, some "x", some [2]⟩
        = PartialTestConfig.merge ⟨none, some "x", some [2]⟩ 0 ⟨some 1, none, none⟩
    ∧ PartialTestConfig.merge ⟨some 1, none, none⟩ 0 ⟨none, some "x", some [2]⟩
        = .ok (PartialTestConfig.union ⟨some 1, none, none⟩ ⟨none, some "x", some [2]⟩) :=
  claim_C8_disjoint_union ⟨some 1, none, none⟩ ⟨none, some "x", some [2]⟩ 0
    ⟨by decide, by decide, by decide⟩

/-- C9: finalize is deterministic given identical inputs — equal partials,
equal contexts, and an equal environment snapshot (the explicit model of the
process environment that `env_values` re-reads) produce equal results. -/
theorem claim_C9_finalize_deterministic (p1 p2 : PartialTestConfig)
    (c1 c2 : TestContext) (e1 e2 : EnvSnapshot)
    (hp : p1 = p2) (hc : c1 = c2) (he : e1 = e2) :
    p1.finalize c1 e1 = p2.finalize c2 e2 := by
  subst hp hc he
  rfl

/-- C9 witness: two finalize calls on the same concrete partial, context,
and environment snapshot agree. -/
theorem claim_C9_finalize_deterministic_witness :
    PartialTestConfig.finalize ⟨some 5, none, some [1]⟩ 7 [("TEST_COUNT", "42")]
      = PartialTestConfig.finalize ⟨some 5, none, some [1]⟩ 7 [("TEST_COUNT", "42")] :=
  claim_C9_finalize_deterministic ⟨some 5, none, some [1]⟩ ⟨some 5, none, some [1]⟩
    7 7 [("TEST_COUNT", "42")] [("TEST_COUNT", "42")] rfl rfl rfl

end Schematic
